import Mathlib

/-!
Verification development for the State-Machine-Template repository.

Shallow embedding of the C sources `src/core/sm_state_machine.c`,
`src/core/sm_error_handler.c` and `src/platform/sm_platform_weak.c`
(types from `include/sm_framework/sm_types.h`, constants from
`include/sm_framework/sm_config.h`).

Modelling conventions:
* The C global `g_sm_context` (a `StateMachineContext_t`) together with the
  file-static `g_comm_verification` of `sm_error_handler.c` is modelled as one
  record `Ctx`; every C function that mutates globals becomes a pure function
  `... → Ctx → Ctx` (functions returning `bool` become `... → Ctx → Bool × Ctx`).
* `uint8_t` / `uint32_t` fields are `Nat` with explicit `% 256` / `% 2^32`
  where the C code can overflow.
* All `Platform_GetTimeMs()` reads inside one API call are modelled by a single
  `now : Nat` parameter.
* The three state-callback function pointers stored per state in
  `StateConfig_t` are modelled as a separate record `Hooks` of arbitrary
  state-indexed context transformers (a `NULL` pointer is the identity);
  the transition rules and timeout of `StateConfig_t` stay in `StateConfig_t`.
* The static table `g_recovery_handlers` of custom recovery callbacks is
  modelled as a parameter `handlers : ErrorCode → Option Bool` giving the
  verdict of the registered handler (`none` = NULL entry, the default).
-/

/-- States, from `StateMachineState_t` in `sm_types.h` (the sentinel
`STATE_MAX` is not a value; the enum cannot hold out-of-range states). -/
inductive SMState where
  | STATE_INIT
  | STATE_IDLE
  | STATE_ACTIVE
  | STATE_PROCESSING
  | STATE_COMMUNICATING
  | STATE_MONITORING
  | STATE_CALIBRATING
  | STATE_DIAGNOSTICS
  | STATE_RECOVERY
  | STATE_CRITICAL_ERROR
deriving DecidableEq, Repr, Fintype

/-- Events, from `StateMachineEvent_t` in `sm_types.h` (sentinel `EVENT_MAX`
excluded; the `event >= EVENT_MAX` validation in the C code is vacuous for
in-range enum values). -/
inductive SMEvent where
  | EVENT_NONE
  | EVENT_INIT_COMPLETE
  | EVENT_START
  | EVENT_STOP
  | EVENT_DATA_READY
  | EVENT_PROCESSING_DONE
  | EVENT_COMM_REQUEST
  | EVENT_COMM_COMPLETE
  | EVENT_TIMEOUT
  | EVENT_ERROR_MINOR
  | EVENT_ERROR_NORMAL
  | EVENT_ERROR_CRITICAL
  | EVENT_RECOVERY_SUCCESS
  | EVENT_RECOVERY_FAILED
deriving DecidableEq, Repr, Fintype

/-- Error severity levels, from `ErrorLevel_t` (sentinel excluded). -/
inductive ErrorLevel where
  | ERROR_LEVEL_NONE
  | ERROR_LEVEL_MINOR
  | ERROR_LEVEL_NORMAL
  | ERROR_LEVEL_CRITICAL
deriving DecidableEq, Repr, Fintype

/-- Error codes, from `ErrorCode_t` (sentinel excluded). -/
inductive ErrorCode where
  | ERROR_CODE_NONE
  | ERROR_CODE_TIMEOUT
  | ERROR_CODE_COMM_LOST
  | ERROR_CODE_COMM_CORRUPT
  | ERROR_CODE_INVALID_DATA
  | ERROR_CODE_BUFFER_OVERFLOW
  | ERROR_CODE_RESOURCE_UNAVAILABLE
  | ERROR_CODE_CALIBRATION_FAILED
  | ERROR_CODE_HARDWARE_FAULT
  | ERROR_CODE_WATCHDOG_RESET
  | ERROR_CODE_MEMORY_CORRUPTION
deriving DecidableEq, Repr, Fintype

open SMState SMEvent ErrorLevel ErrorCode

/-- Configuration constants from `sm_config.h` (defaults). -/
def ERROR_HISTORY_SIZE : Nat := 16

def ERROR_MAX_RECOVERY_ATTEMPTS : Nat := 3

def ERROR_MINOR_TIMEOUT_MS : Nat := 50

def COMM_VERIFICATION_COUNT : Nat := 3

def COMM_VERIFICATION_WINDOW_MS : Nat := 50

def SM_STATE_TIMEOUT_MS : Nat := 5000

def COMM_TIMEOUT_MS : Nat := 100

/-- Modulus of `uint8_t` arithmetic. -/
def UINT8_MOD : Nat := 256

/-- Modulus of `uint32_t` arithmetic. -/
def UINT32_MOD : Nat := 4294967296

/-- C `uint32_t` subtraction `a - b` (wraps modulo `2^32`). -/
def sub32 (a b : Nat) : Nat :=
  ((a % UINT32_MOD) + UINT32_MOD - (b % UINT32_MOD)) % UINT32_MOD

/-- `ErrorInfo_t` from `sm_types.h`. -/
structure ErrorInfo where
  level : ErrorLevel
  code : ErrorCode
  timestamp : Nat
  state : SMState
  retry_count : Nat
  is_recovered : Bool
deriving DecidableEq, Repr

/-- The all-zero `ErrorInfo_t` produced by `memset(..., 0, ...)`
(level 0 = NONE, code 0 = NONE, state 0 = INIT). -/
def zeroErrorInfo : ErrorInfo :=
  { level := ERROR_LEVEL_NONE, code := ERROR_CODE_NONE, timestamp := 0,
    state := STATE_INIT, retry_count := 0, is_recovered := false }

/-- `ErrorHandler_t` from `sm_types.h`. `error_history` is the fixed
`ErrorInfo_t[ERROR_HISTORY_SIZE]` array, kept as a list of length 16. -/
structure ErrorHandlerT where
  current_error : ErrorInfo
  error_history : List ErrorInfo
  history_index : Nat
  minor_error_timestamp : Nat
  minor_good_message_count : Nat
  critical_lock_active : Bool
deriving DecidableEq, Repr

/-- The file-static `g_comm_verification` of `sm_error_handler.c`. -/
structure CommVerification where
  window_start_time : Nat
  good_message_count : Nat
  is_verified : Bool
deriving DecidableEq, Repr

/-- `StateMachineContext_t` (the global `g_sm_context`) plus, in the `comm`
field, the file-static `g_comm_verification` of `sm_error_handler.c`. -/
structure Ctx where
  current_state : SMState
  previous_state : SMState
  pending_event : SMEvent
  state_entry_time : Nat
  state_execution_count : Nat
  state_changed : Bool
  error_handler : ErrorHandlerT
  comm : CommVerification
deriving DecidableEq, Repr

/-- `StateTransition_t` from `sm_types.h`. -/
structure StateTransition where
  event : SMEvent
  next_state : SMState
deriving DecidableEq, Repr

/-- Rule part of `StateConfig_t` from `sm_types.h`: identifier, ordered
transition list (array prefix of length `transition_count`) and timeout.
The three callback pointers are modelled separately by `Hooks`. -/
structure StateConfig where
  state_id : SMState
  transitions : List StateTransition
  timeout_ms : Nat
deriving DecidableEq, Repr

/-- Per-state callbacks (the `on_entry` / `on_state` / `on_exit` function
pointers of `StateConfig_t`): arbitrary context transformers indexed by the
state whose table slot stores them. -/
structure Hooks where
  on_entry : SMState → Ctx → Ctx
  on_state : SMState → Ctx → Ctx
  on_exit : SMState → Ctx → Ctx

/-- All callback pointers `NULL` (C skips a `NULL` callback). -/
def noHooks : Hooks :=
  { on_entry := fun _ c => c, on_state := fun _ c => c, on_exit := fun _ c => c }

/-- No custom recovery handler registered for any code (the state after
`ErrorHandler_Init`). -/
def noHandlers : ErrorCode → Option Bool := fun _ => none

/-- `Platform_IsTimeout` from `sm_platform_weak.c`; the internal
`Platform_GetTimeMs()` read is the parameter `current_time`. -/
def Platform_IsTimeout (start_time_ms timeout_ms current_time : Nat) : Bool :=
  if current_time ≥ start_time_ms then
    current_time - start_time_ms ≥ timeout_ms
  else
    (4294967295 - start_time_ms) + current_time ≥ timeout_ms

/-- `StateMachine_PostEvent` from `sm_state_machine.c`. The `event >= EVENT_MAX`
half of the validation is vacuous for enum-valued events. -/
def StateMachine_PostEvent (event : SMEvent) (ctx : Ctx) : Bool × Ctx :=
  if event = EVENT_NONE then
    (false, ctx)
  else if ctx.pending_event ≠ EVENT_NONE then
    (false, ctx)
  else
    (true, { ctx with pending_event := event })

/-- `CheckStateTransition` from `sm_state_machine.c`: first rule in the
current state's list whose event matches, if any. The configuration is
passed in place of the `g_state_table[g_sm_context.current_state]` lookup. -/
def CheckStateTransition (cfg : StateConfig) (event : SMEvent) : Option SMState :=
  (cfg.transitions.find? (fun t => t.event = event)).map (fun t => t.next_state)

/-- `PerformStateTransition` from `sm_state_machine.c`. The
`new_state >= STATE_MAX` validation is vacuous for enum values. The outgoing
state's `on_exit` callback runs before the state fields are updated. -/
def PerformStateTransition (hooks : Hooks) (new_state : SMState) (ctx : Ctx) : Ctx :=
  let c := hooks.on_exit ctx.current_state ctx
  { c with previous_state := c.current_state,
           current_state := new_state,
           state_changed := true }

/-- Lines 151-159 of `StateMachine_Execute`: on a state change run the
(captured) state's `on_entry`, then clear the flag, stamp the entry time and
zero the execution counter. `s0` is the state captured at the top of the
tick (the `current_state_config` pointer). -/
def executeEntryPhase (hooks : Hooks) (now : Nat) (s0 : SMState) (ctx : Ctx) : Ctx :=
  if ctx.state_changed then
    let c := hooks.on_entry s0 ctx
    { c with state_changed := false,
             state_entry_time := now,
             state_execution_count := 0 }
  else
    ctx

/-- Lines 161-165 of `StateMachine_Execute`: run the captured state's
`on_state` callback, then increment the execution counter (`uint32_t`). -/
def executeTickPhase (hooks : Hooks) (s0 : SMState) (ctx : Ctx) : Ctx :=
  let c := hooks.on_state s0 ctx
  { c with state_execution_count := (c.state_execution_count + 1) % UINT32_MOD }

/-- Lines 167-178 of `StateMachine_Execute`: if the captured state has a
nonzero timeout that has elapsed, post `EVENT_TIMEOUT` (the posting result is
ignored, so a pending event is never overridden). -/
def executeTimeoutPhase (timeout_ms now : Nat) (ctx : Ctx) : Ctx :=
  if 0 < timeout_ms ∧ Platform_IsTimeout ctx.state_entry_time timeout_ms now then
    (StateMachine_PostEvent EVENT_TIMEOUT ctx).2
  else
    ctx

/-- Lines 180-190 of `StateMachine_Execute`: drain the pending-event slot.
`CheckStateTransition` re-reads the current state; the slot is cleared
unconditionally after the (possible) transition, hence after `on_exit`. -/
def executeEventPhase (table : SMState → StateConfig) (hooks : Hooks) (ctx : Ctx) : Ctx :=
  if ctx.pending_event ≠ EVENT_NONE then
    let c := match CheckStateTransition (table ctx.current_state) ctx.pending_event with
      | some next_state => PerformStateTransition hooks next_state ctx
      | none => ctx
    { c with pending_event := EVENT_NONE }
  else
    ctx

/-- `StateMachine_Execute` from `sm_state_machine.c`. The C function returns
`g_sm_context.current_state`, i.e. the `current_state` field of the returned
context. `table` stands for `g_state_table`. -/
def StateMachine_Execute (table : SMState → StateConfig) (hooks : Hooks)
    (now : Nat) (ctx : Ctx) : Ctx :=
  if ctx.error_handler.critical_lock_active then
    if ctx.current_state ≠ STATE_CRITICAL_ERROR then
      PerformStateTransition hooks STATE_CRITICAL_ERROR ctx
    else
      ctx
  else
    let s0 := ctx.current_state
    let cfg := table s0
    executeEventPhase table hooks
      (executeTimeoutPhase cfg.timeout_ms now
        (executeTickPhase hooks s0
          (executeEntryPhase hooks now s0 ctx)))

/-- `InitializeStateTable` from `sm_state_machine.c` (rule lists and timeouts;
callback wiring lives in `Hooks`). -/
def InitializeStateTable : SMState → StateConfig
  | STATE_INIT =>
    { state_id := STATE_INIT,
      transitions := [⟨EVENT_INIT_COMPLETE, STATE_IDLE⟩,
                      ⟨EVENT_ERROR_NORMAL, STATE_RECOVERY⟩,
                      ⟨EVENT_ERROR_CRITICAL, STATE_CRITICAL_ERROR⟩,
                      ⟨EVENT_TIMEOUT, STATE_RECOVERY⟩],
      timeout_ms := SM_STATE_TIMEOUT_MS }
  | STATE_IDLE =>
    { state_id := STATE_IDLE,
      transitions := [⟨EVENT_START, STATE_ACTIVE⟩,
                      ⟨EVENT_ERROR_NORMAL, STATE_RECOVERY⟩,
                      ⟨EVENT_ERROR_CRITICAL, STATE_CRITICAL_ERROR⟩],
      timeout_ms := 0 }
  | STATE_ACTIVE =>
    { state_id := STATE_ACTIVE,
      transitions := [⟨EVENT_DATA_READY, STATE_PROCESSING⟩,
                      ⟨EVENT_STOP, STATE_IDLE⟩,
                      ⟨EVENT_ERROR_NORMAL, STATE_RECOVERY⟩,
                      ⟨EVENT_ERROR_CRITICAL, STATE_CRITICAL_ERROR⟩],
      timeout_ms := 0 }
  | STATE_PROCESSING =>
    { state_id := STATE_PROCESSING,
      transitions := [⟨EVENT_PROCESSING_DONE, STATE_COMMUNICATING⟩,
                      ⟨EVENT_TIMEOUT, STATE_RECOVERY⟩,
                      ⟨EVENT_ERROR_NORMAL, STATE_RECOVERY⟩,
                      ⟨EVENT_ERROR_CRITICAL, STATE_CRITICAL_ERROR⟩],
      timeout_ms := 3000 }
  | STATE_COMMUNICATING =>
    { state_id := STATE_COMMUNICATING,
      transitions := [⟨EVENT_COMM_COMPLETE, STATE_MONITORING⟩,
                      ⟨EVENT_TIMEOUT, STATE_RECOVERY⟩,
                      ⟨EVENT_ERROR_NORMAL, STATE_RECOVERY⟩,
                      ⟨EVENT_ERROR_CRITICAL, STATE_CRITICAL_ERROR⟩],
      timeout_ms := COMM_TIMEOUT_MS }
  | STATE_MONITORING =>
    { state_id := STATE_MONITORING,
      transitions := [⟨EVENT_STOP, STATE_IDLE⟩,
                      ⟨EVENT_DATA_READY, STATE_PROCESSING⟩,
                      ⟨EVENT_ERROR_NORMAL, STATE_RECOVERY⟩,
                      ⟨EVENT_ERROR_CRITICAL, STATE_CRITICAL_ERROR⟩],
      timeout_ms := 0 }
  | STATE_CALIBRATING =>
    { state_id := STATE_CALIBRATING,
      transitions := [⟨EVENT_PROCESSING_DONE, STATE_DIAGNOSTICS⟩,
                      ⟨EVENT_TIMEOUT, STATE_RECOVERY⟩,
                      ⟨EVENT_ERROR_NORMAL, STATE_RECOVERY⟩,
                      ⟨EVENT_ERROR_CRITICAL, STATE_CRITICAL_ERROR⟩],
      timeout_ms := 5000 }
  | STATE_DIAGNOSTICS =>
    { state_id := STATE_DIAGNOSTICS,
      transitions := [⟨EVENT_PROCESSING_DONE, STATE_ACTIVE⟩,
                      ⟨EVENT_TIMEOUT, STATE_RECOVERY⟩,
                      ⟨EVENT_ERROR_NORMAL, STATE_RECOVERY⟩,
                      ⟨EVENT_ERROR_CRITICAL, STATE_CRITICAL_ERROR⟩],
      timeout_ms := 2000 }
  | STATE_RECOVERY =>
    { state_id := STATE_RECOVERY,
      transitions := [⟨EVENT_RECOVERY_SUCCESS, STATE_IDLE⟩,
                      ⟨EVENT_RECOVERY_FAILED, STATE_CRITICAL_ERROR⟩,
                      ⟨EVENT_TIMEOUT, STATE_CRITICAL_ERROR⟩,
                      ⟨EVENT_ERROR_CRITICAL, STATE_CRITICAL_ERROR⟩],
      timeout_ms := 2000 }
  | STATE_CRITICAL_ERROR =>
    { state_id := STATE_CRITICAL_ERROR,
      transitions := [],
      timeout_ms := 0 }

/-- Zero-initialized `ErrorHandler_t` as produced by `ErrorHandler_Init`
(`memset` to zero, then levels and the lock set explicitly). -/
def initErrorHandler : ErrorHandlerT :=
  { current_error := zeroErrorInfo,
    error_history := List.replicate ERROR_HISTORY_SIZE zeroErrorInfo,
    history_index := 0,
    minor_error_timestamp := 0,
    minor_good_message_count := 0,
    critical_lock_active := false }

/-- Zero-initialized `g_comm_verification`. -/
def initComm : CommVerification :=
  { window_start_time := 0, good_message_count := 0, is_verified := false }

/-- `ErrorHandler_Init` from `sm_error_handler.c` (always returns true). -/
def ErrorHandler_Init (ctx : Ctx) : Ctx :=
  { ctx with error_handler := initErrorHandler, comm := initComm }

/-- `StateMachine_Init` from `sm_state_machine.c`: clears the whole context,
sets the initial fields, stamps the entry time and runs `ErrorHandler_Init`
(the table it builds is `InitializeStateTable`). Always succeeds. -/
def StateMachine_Init (now : Nat) : Ctx :=
  ErrorHandler_Init
    { current_state := STATE_INIT,
      previous_state := STATE_INIT,
      pending_event := EVENT_NONE,
      state_entry_time := now,
      state_execution_count := 0,
      state_changed := false,
      error_handler := initErrorHandler,
      comm := initComm }

/-- `AddErrorToHistory` from `sm_error_handler.c`: write at `history_index`,
then advance the index modulo `ERROR_HISTORY_SIZE`. -/
def AddErrorToHistory (error_info : ErrorInfo) (h : ErrorHandlerT) : ErrorHandlerT :=
  { h with error_history := h.error_history.set h.history_index error_info,
           history_index := (h.history_index + 1) % ERROR_HISTORY_SIZE }

/-- `ErrorHandler_VerifyCommChannel` from `sm_error_handler.c`
(`good_message_count` is `uint8_t`). -/
def ErrorHandler_VerifyCommChannel (now : Nat) (ctx : Ctx) : Bool × Ctx :=
  let cv := ctx.comm
  if sub32 now cv.window_start_time ≤ COMM_VERIFICATION_WINDOW_MS then
    let cv := { cv with good_message_count := (cv.good_message_count + 1) % UINT8_MOD }
    if cv.good_message_count ≥ COMM_VERIFICATION_COUNT then
      (true, { ctx with comm := { cv with is_verified := true } })
    else
      (false, { ctx with comm := cv })
  else
    (false, { ctx with comm := { cv with window_start_time := now,
                                         good_message_count := 1 } })

/-- `ErrorHandler_HandleNormalError` from `sm_error_handler.c`: overwrite the
current-error slot and post `EVENT_ERROR_NORMAL` (post result ignored). -/
def ErrorHandler_HandleNormalError (code : ErrorCode) (now : Nat) (ctx : Ctx) : Bool × Ctx :=
  let ctx := { ctx with error_handler :=
    { ctx.error_handler with current_error :=
      { level := ERROR_LEVEL_NORMAL, code := code, timestamp := now,
        state := ctx.current_state, retry_count := 0, is_recovered := false } } }
  (true, (StateMachine_PostEvent EVENT_ERROR_NORMAL ctx).2)

/-- `ErrorHandler_HandleCriticalError` from `sm_error_handler.c`: overwrite
the current-error slot, set the lockout flag unconditionally, then post
`EVENT_ERROR_CRITICAL` (post result ignored). Returns `void` in C. -/
def ErrorHandler_HandleCriticalError (code : ErrorCode) (now : Nat) (ctx : Ctx) : Ctx :=
  let ctx := { ctx with error_handler :=
    { ctx.error_handler with
      current_error :=
        { level := ERROR_LEVEL_CRITICAL, code := code, timestamp := now,
          state := ctx.current_state, retry_count := 0, is_recovered := false },
      critical_lock_active := true } }
  (StateMachine_PostEvent EVENT_ERROR_CRITICAL ctx).2

/-- `ErrorHandler_HandleMinorError` from `sm_error_handler.c`
(`minor_good_message_count` is `uint8_t`; window comparison uses `uint32_t`
subtraction). -/
def ErrorHandler_HandleMinorError (code : ErrorCode) (now : Nat) (ctx : Ctx) : Bool × Ctx :=
  let ctx :=
    if ctx.error_handler.minor_error_timestamp = 0 then
      { ctx with error_handler :=
        { ctx.error_handler with minor_error_timestamp := now,
                                 minor_good_message_count := 0 } }
    else
      ctx
  if sub32 now ctx.error_handler.minor_error_timestamp ≤ ERROR_MINOR_TIMEOUT_MS then
    let r := ErrorHandler_VerifyCommChannel now ctx
    if r.1 then
      let ctx := r.2
      let cnt := (ctx.error_handler.minor_good_message_count + 1) % UINT8_MOD
      let ctx := { ctx with error_handler :=
        { ctx.error_handler with minor_good_message_count := cnt } }
      if cnt ≥ COMM_VERIFICATION_COUNT then
        (true, { ctx with error_handler :=
          { ctx.error_handler with minor_error_timestamp := 0,
                                   minor_good_message_count := 0 } })
      else
        (true, ctx)
    else
      (true, r.2)
  else
    ErrorHandler_HandleNormalError code now ctx

/-- The `ErrorInfo_t` record that `ErrorHandler_Report` builds before
dispatch (timestamp and current state stamped, retry count zeroed). -/
def mkReportInfo (level : ErrorLevel) (code : ErrorCode) (now : Nat) (ctx : Ctx) : ErrorInfo :=
  { level := level, code := code, timestamp := now,
    state := ctx.current_state, retry_count := 0, is_recovered := false }

/-- `ErrorHandler_Report` from `sm_error_handler.c`: append to history first,
then dispatch on severity (`default` case of the `switch` returns false). -/
def ErrorHandler_Report (level : ErrorLevel) (code : ErrorCode) (now : Nat)
    (ctx : Ctx) : Bool × Ctx :=
  let info := mkReportInfo level code now ctx
  let ctx := { ctx with error_handler := AddErrorToHistory info ctx.error_handler }
  match level with
  | ERROR_LEVEL_MINOR => ErrorHandler_HandleMinorError code now ctx
  | ERROR_LEVEL_NORMAL => ErrorHandler_HandleNormalError code now ctx
  | ERROR_LEVEL_CRITICAL => (true, ErrorHandler_HandleCriticalError code now ctx)
  | ERROR_LEVEL_NONE => (false, ctx)

/-- `ErrorHandler_AttemptRecovery` from `sm_error_handler.c`. `handlers`
models the `g_recovery_handlers` table (`none` = NULL). The retry counter is
`uint8_t` and is incremented before the limit check. -/
def ErrorHandler_AttemptRecovery (handlers : ErrorCode → Option Bool) (now : Nat)
    (ctx : Ctx) : Bool × Ctx :=
  if ctx.error_handler.current_error.level = ERROR_LEVEL_NONE then
    (true, ctx)
  else
    let rc := (ctx.error_handler.current_error.retry_count + 1) % UINT8_MOD
    let ctx := { ctx with error_handler :=
      { ctx.error_handler with current_error :=
        { ctx.error_handler.current_error with retry_count := rc } } }
    if rc ≥ ERROR_MAX_RECOVERY_ATTEMPTS then
      (false, ctx)
    else
      match handlers ctx.error_handler.current_error.code with
      | some verdict => (verdict, ctx)
      | none =>
        match ctx.error_handler.current_error.code with
        | ERROR_CODE_COMM_LOST =>
          let r := ErrorHandler_VerifyCommChannel now ctx
          if r.1 then
            (true, { r.2 with error_handler :=
              { r.2.error_handler with current_error :=
                { r.2.error_handler.current_error with is_recovered := true } } })
          else
            (false, r.2)
        | ERROR_CODE_TIMEOUT =>
          (true, { ctx with error_handler :=
            { ctx.error_handler with current_error :=
              { ctx.error_handler.current_error with is_recovered := true } } })
        | _ => (false, ctx)

/-- `ErrorHandler_ClearError` from `sm_error_handler.c` (does not touch the
lockout flag). -/
def ErrorHandler_ClearError (ctx : Ctx) : Ctx :=
  { ctx with error_handler :=
    { ctx.error_handler with current_error :=
      { ctx.error_handler.current_error with
        level := ERROR_LEVEL_NONE, code := ERROR_CODE_NONE, retry_count := 0 } } }

/-- `ErrorHandler_GetHistoryError` from `sm_error_handler.c`. The output
pointer is modelled by the `Option`; `none` is the `false` return for an
out-of-range index (the NULL-pointer rejection has no counterpart for a
Lean value). -/
def ErrorHandler_GetHistoryError (index : Nat) (h : ErrorHandlerT) : Option ErrorInfo :=
  if index ≥ ERROR_HISTORY_SIZE then
    none
  else
    some (h.error_history.getD
      ((h.history_index + ERROR_HISTORY_SIZE - index - 1) % ERROR_HISTORY_SIZE)
      zeroErrorInfo)

/-- `ErrorHandler_GetHistoryCount` from `sm_error_handler.c`. -/
def ErrorHandler_GetHistoryCount : Nat := ERROR_HISTORY_SIZE

/-- `StateMachine_Reset` from `sm_state_machine.c`: a no-op while the
critical lockout is active; otherwise clear the error and force a transition
to `STATE_INIT` (the `g_state_data` clear has no counterpart here). -/
def StateMachine_Reset (hooks : Hooks) (ctx : Ctx) : Ctx :=
  if ctx.error_handler.critical_lock_active then
    ctx
  else
    PerformStateTransition hooks STATE_INIT (ErrorHandler_ClearError ctx)

/-- Canonical transition table and default timeouts transcribed from the
words of spec section 6, for comparison with `InitializeStateTable`. -/
def specTable : SMState → StateConfig
  | STATE_INIT =>
    { state_id := STATE_INIT,
      transitions := [⟨EVENT_INIT_COMPLETE, STATE_IDLE⟩,
                      ⟨EVENT_ERROR_NORMAL, STATE_RECOVERY⟩,
                      ⟨EVENT_ERROR_CRITICAL, STATE_CRITICAL_ERROR⟩,
                      ⟨EVENT_TIMEOUT, STATE_RECOVERY⟩],
      timeout_ms := 5000 }
  | STATE_IDLE =>
    { state_id := STATE_IDLE,
      transitions := [⟨EVENT_START, STATE_ACTIVE⟩,
                      ⟨EVENT_ERROR_NORMAL, STATE_RECOVERY⟩,
                      ⟨EVENT_ERROR_CRITICAL, STATE_CRITICAL_ERROR⟩],
      timeout_ms := 0 }
  | STATE_ACTIVE =>
    { state_id := STATE_ACTIVE,
      transitions := [⟨EVENT_DATA_READY, STATE_PROCESSING⟩,
                      ⟨EVENT_STOP, STATE_IDLE⟩,
                      ⟨EVENT_ERROR_NORMAL, STATE_RECOVERY⟩,
                      ⟨EVENT_ERROR_CRITICAL, STATE_CRITICAL_ERROR⟩],
      timeout_ms := 0 }
  | STATE_PROCESSING =>
    { state_id := STATE_PROCESSING,
      transitions := [⟨EVENT_PROCESSING_DONE, STATE_COMMUNICATING⟩,
                      ⟨EVENT_TIMEOUT, STATE_RECOVERY⟩,
                      ⟨EVENT_ERROR_NORMAL, STATE_RECOVERY⟩,
                      ⟨EVENT_ERROR_CRITICAL, STATE_CRITICAL_ERROR⟩],
      timeout_ms := 3000 }
  | STATE_COMMUNICATING =>
    { state_id := STATE_COMMUNICATING,
      transitions := [⟨EVENT_COMM_COMPLETE, STATE_MONITORING⟩,
                      ⟨EVENT_TIMEOUT, STATE_RECOVERY⟩,
                      ⟨EVENT_ERROR_NORMAL, STATE_RECOVERY⟩,
                      ⟨EVENT_ERROR_CRITICAL, STATE_CRITICAL_ERROR⟩],
      timeout_ms := 100 }
  | STATE_MONITORING =>
    { state_id := STATE_MONITORING,
      transitions := [⟨EVENT_STOP, STATE_IDLE⟩,
                      ⟨EVENT_DATA_READY, STATE_PROCESSING⟩,
                      ⟨EVENT_ERROR_NORMAL, STATE_RECOVERY⟩,
                      ⟨EVENT_ERROR_CRITICAL, STATE_CRITICAL_ERROR⟩],
      timeout_ms := 0 }
  | STATE_CALIBRATING =>
    { state_id := STATE_CALIBRATING,
      transitions := [⟨EVENT_PROCESSING_DONE, STATE_DIAGNOSTICS⟩,
                      ⟨EVENT_TIMEOUT, STATE_RECOVERY⟩,
                      ⟨EVENT_ERROR_NORMAL, STATE_RECOVERY⟩,
                      ⟨EVENT_ERROR_CRITICAL, STATE_CRITICAL_ERROR⟩],
      timeout_ms := 5000 }
  | STATE_DIAGNOSTICS =>
    { state_id := STATE_DIAGNOSTICS,
      transitions := [⟨EVENT_PROCESSING_DONE, STATE_ACTIVE⟩,
                      ⟨EVENT_TIMEOUT, STATE_RECOVERY⟩,
                      ⟨EVENT_ERROR_NORMAL, STATE_RECOVERY⟩,
                      ⟨EVENT_ERROR_CRITICAL, STATE_CRITICAL_ERROR⟩],
      timeout_ms := 2000 }
  | STATE_RECOVERY =>
    { state_id := STATE_RECOVERY,
      transitions := [⟨EVENT_RECOVERY_SUCCESS, STATE_IDLE⟩,
                      ⟨EVENT_RECOVERY_FAILED, STATE_CRITICAL_ERROR⟩,
                      ⟨EVENT_TIMEOUT, STATE_CRITICAL_ERROR⟩,
                      ⟨EVENT_ERROR_CRITICAL, STATE_CRITICAL_ERROR⟩],
      timeout_ms := 2000 }
  | STATE_CRITICAL_ERROR =>
    { state_id := STATE_CRITICAL_ERROR,
      transitions := [],
      timeout_ms := 0 }

/-- Results and final context of a sequence of `StateMachine_PostEvent` calls
with no intervening tick. -/
def postAll (events : List SMEvent) (ctx : Ctx) : List Bool × Ctx :=
  match events with
  | [] => ([], ctx)
  | e :: rest =>
    let (r, ctx) := StateMachine_PostEvent e ctx
    let (rs, ctx) := postAll rest ctx
    (r :: rs, ctx)

/-- Fold of `AddErrorToHistory` over a list of records (oldest first). -/
def histAddAll (es : List ErrorInfo) (h : ErrorHandlerT) : ErrorHandlerT :=
  es.foldl (fun h e => AddErrorToHistory e h) h

/-- One externally driven operation on the machine, for stating trace
properties: a call to `StateMachine_Execute` (with its table, hooks and
clock reading), a `StateMachine_PostEvent`, or a `StateMachine_Reset`. -/
inductive Op where
  | tick (table : SMState → StateConfig) (hooks : Hooks) (now : Nat)
  | post (e : SMEvent)
  | reset (hooks : Hooks)

/-- Apply one operation. -/
def applyOp (op : Op) (ctx : Ctx) : Ctx :=
  match op with
  | Op.tick table hooks now => StateMachine_Execute table hooks now ctx
  | Op.post e => (StateMachine_PostEvent e ctx).2
  | Op.reset hooks => StateMachine_Reset hooks ctx

/-- Run a sequence of operations, oldest first. -/
def runOps (ops : List Op) (ctx : Ctx) : Ctx :=
  ops.foldl (fun c op => applyOp op c) ctx

/-- A state-indexed callback preserves the critical-lockout flag. -/
def preservesLock (f : SMState → Ctx → Ctx) : Prop :=
  ∀ s c, ((f s c).error_handler.critical_lock_active
            = c.error_handler.critical_lock_active)

/-- A state-indexed callback preserves the current state and the
pending-event slot. -/
def preservesCore (f : SMState → Ctx → Ctx) : Prop :=
  ∀ s c, ((f s c).current_state = c.current_state)
       ∧ ((f s c).pending_event = c.pending_event)

/-- The hooks named by an operation preserve the lockout flag (only the
`on_exit` callback can run while the lockout is active). -/
def opPreservesLock : Op → Prop
  | Op.tick _ hooks _ => preservesLock hooks.on_exit
  | Op.post _ => True
  | Op.reset _ => True

/-- Helper: list of `PostEvent` results once the slot is occupied: every call
fails and the context is unchanged. -/
theorem postAll_occupied (events : List SMEvent) (ctx : Ctx)
    (h : ctx.pending_event ≠ EVENT_NONE) :
    postAll events ctx = (events.map (fun _ => false), ctx) := by
  induction events with
  | nil => rfl
  | cons e rest ih =>
    have hpost : StateMachine_PostEvent e ctx = (false, ctx) := by
      unfold StateMachine_PostEvent
      by_cases he : e = EVENT_NONE
      · rw [if_pos he]
      · rw [if_neg he, if_pos h]
    simp [postAll, hpost, ih]

/-- C2: starting from an empty pending-event slot, in any sequence of
`StateMachine_PostEvent` calls with valid non-`EVENT_NONE` events and no
intervening tick, only the first call succeeds and stores its event; every
subsequent call returns failure and leaves the context (in particular the
pending-event slot) unchanged. -/
theorem postEvent_first_wins (ctx : Ctx) (h0 : ctx.pending_event = EVENT_NONE)
    (e : SMEvent) (he : e ≠ EVENT_NONE) (rest : List SMEvent)
    (hrest : ∀ x ∈ rest, x ≠ EVENT_NONE) :
    postAll (e :: rest) ctx
      = (true :: rest.map (fun _ => false), { ctx with pending_event := e }) := by
  have hpost : StateMachine_PostEvent e ctx = (true, { ctx with pending_event := e }) := by
    unfold StateMachine_PostEvent
    rw [if_neg he, if_neg (by simp [h0])]
  have hocc : ({ ctx with pending_event := e } : Ctx).pending_event ≠ EVENT_NONE := he
  simp [postAll, hpost, postAll_occupied rest _ hocc]

/-- Witness for C2 at a concrete input: three posts, only the first lands. -/
theorem postEvent_first_wins_witness :
    postAll [EVENT_START, EVENT_STOP, EVENT_DATA_READY] (StateMachine_Init 0)
      = ([true, false, false],
         { StateMachine_Init 0 with pending_event := EVENT_START }) := by
  have h := postEvent_first_wins (StateMachine_Init 0) rfl EVENT_START (by decide)
    [EVENT_STOP, EVENT_DATA_READY] (by decide)
  simpa using h

/-- C6: the transition table built by `StateMachine_Init` (via
`InitializeStateTable`) equals, state by state, the canonical table and
default timeouts transcribed from spec section 6 — same rules in the same
order, `STATE_CRITICAL_ERROR` with zero rules, and the listed timeouts. -/
theorem init_table_matches_spec : ∀ s, InitializeStateTable s = specTable s := by
  decide

/-- Helper: the event-drain step always leaves the pending slot empty. -/
theorem executeEventPhase_pending (table : SMState → StateConfig) (hooks : Hooks)
    (ctx : Ctx) : (executeEventPhase table hooks ctx).pending_event = EVENT_NONE := by
  unfold executeEventPhase
  by_cases h : ctx.pending_event = EVENT_NONE
  · rw [if_neg (by simpa using h)]
    exact h
  · rw [if_pos h]

/-- C8: whenever the critical lockout is inactive, `StateMachine_Execute`
returns with the pending-event slot equal to `EVENT_NONE`, for arbitrary
state callbacks (anything a hook or the timeout check posts during the tick
is consumed or discarded before the tick ends; the final clear runs after
the outgoing state's `on_exit`). -/
theorem execute_clears_pending (table : SMState → StateConfig) (hooks : Hooks)
    (now : Nat) (ctx : Ctx)
    (h : ctx.error_handler.critical_lock_active = false) :
    (StateMachine_Execute table hooks now ctx).pending_event = EVENT_NONE := by
  unfold StateMachine_Execute
  rw [if_neg (by simp [h])]
  exact executeEventPhase_pending _ _ _

/-- Witness for C8 at a concrete input. -/
theorem execute_clears_pending_witness :
    (StateMachine_Execute InitializeStateTable noHooks 3
      ((StateMachine_PostEvent EVENT_START (StateMachine_Init 0)).2)).pending_event
      = EVENT_NONE :=
  execute_clears_pending InitializeStateTable noHooks 3
    ((StateMachine_PostEvent EVENT_START (StateMachine_Init 0)).2) rfl

/-- C9: while the critical lockout is active and the current state is already
`STATE_CRITICAL_ERROR`, `StateMachine_Execute` is the identity on the
context: no field changes, no callback output can appear (the theorem holds
for arbitrary hooks), the entry time, execution counter, `state_changed`
flag and pending event are all untouched. -/
theorem execute_locked_identity (table : SMState → StateConfig) (hooks : Hooks)
    (now : Nat) (ctx : Ctx)
    (h1 : ctx.error_handler.critical_lock_active = true)
    (h2 : ctx.current_state = STATE_CRITICAL_ERROR) :
    StateMachine_Execute table hooks now ctx = ctx := by
  unfold StateMachine_Execute
  rw [if_pos (by simp [h1]), if_neg (by simp [h2])]

/-- Witness for C9 at a concrete input. -/
theorem execute_locked_identity_witness :
    StateMachine_Execute InitializeStateTable noHooks 42
      { StateMachine_Init 0 with
        current_state := STATE_CRITICAL_ERROR,
        pending_event := EVENT_START,
        error_handler := { initErrorHandler with critical_lock_active := true } }
      = { StateMachine_Init 0 with
          current_state := STATE_CRITICAL_ERROR,
          pending_event := EVENT_START,
          error_handler := { initErrorHandler with critical_lock_active := true } } :=
  execute_locked_identity InitializeStateTable noHooks 42 _ rfl rfl

/-- C10: `ErrorHandler_GetHistoryError` succeeds (returns a record) for every
index below `ERROR_HISTORY_SIZE` on every handler state — in particular, on a
freshly initialized handler every slot reads back as the zero-initialized
record even though nothing was reported — it fails for indices at or beyond
the capacity, and `ErrorHandler_GetHistoryCount` is always the full capacity
(the API cannot distinguish an empty slot from a real entry). -/
theorem history_read_total :
    (∀ (h : ErrorHandlerT) (index : Nat), index < ERROR_HISTORY_SIZE →
      ∃ e, ErrorHandler_GetHistoryError index h = some e)
    ∧ (∀ (h : ErrorHandlerT) (index : Nat), ERROR_HISTORY_SIZE ≤ index →
      ErrorHandler_GetHistoryError index h = none)
    ∧ (∀ index : Nat, index < ERROR_HISTORY_SIZE →
      ErrorHandler_GetHistoryError index initErrorHandler = some zeroErrorInfo)
    ∧ ErrorHandler_GetHistoryCount = ERROR_HISTORY_SIZE := by
  refine ⟨?_, ?_, ?_, rfl⟩
  · intro h index hidx
    unfold ErrorHandler_GetHistoryError
    rw [if_neg (by omega)]
    exact ⟨_, rfl⟩
  · intro h index hidx
    unfold ErrorHandler_GetHistoryError
    rw [if_pos hidx]
  · intro index hidx
    have h16 : index < 16 := hidx
    interval_cases index <;> rfl

/-- Witness for C10 at a concrete input. -/
theorem history_read_total_witness :
    ErrorHandler_GetHistoryError 7 initErrorHandler = some zeroErrorInfo
    ∧ ErrorHandler_GetHistoryCount = ERROR_HISTORY_SIZE :=
  ⟨history_read_total.2.2.1 7 (by decide), history_read_total.2.2.2⟩

/-- Helper: the entry phase does not move the current state or the pending
slot when the `on_entry` callback preserves them. -/
theorem executeEntryPhase_core (hooks : Hooks) (now : Nat) (s0 : SMState)
    (ctx : Ctx) (h : preservesCore hooks.on_entry) :
    (executeEntryPhase hooks now s0 ctx).current_state = ctx.current_state
    ∧ (executeEntryPhase hooks now s0 ctx).pending_event = ctx.pending_event := by
  unfold executeEntryPhase
  split
  · exact ⟨(h s0 ctx).1, (h s0 ctx).2⟩
  · exact ⟨rfl, rfl⟩

/-- Helper: the on-state phase does not move the current state or the
pending slot when the `on_state` callback preserves them. -/
theorem executeTickPhase_core (hooks : Hooks) (s0 : SMState) (ctx : Ctx)
    (h : preservesCore hooks.on_state) :
    (executeTickPhase hooks s0 ctx).current_state = ctx.current_state
    ∧ (executeTickPhase hooks s0 ctx).pending_event = ctx.pending_event := by
  unfold executeTickPhase
  exact ⟨(h s0 ctx).1, (h s0 ctx).2⟩

/-- Helper: the timeout phase is a no-op while the pending slot is occupied
(the posted `EVENT_TIMEOUT` is dropped by `StateMachine_PostEvent`). -/
theorem executeTimeoutPhase_occupied (timeout_ms now : Nat) (ctx : Ctx)
    (h : ctx.pending_event ≠ EVENT_NONE) :
    executeTimeoutPhase timeout_ms now ctx = ctx := by
  unfold executeTimeoutPhase
  split
  · unfold StateMachine_PostEvent
    rw [if_neg (by decide), if_pos h]
  · rfl

/-- C3: when `StateMachine_Execute` processes a pending event `E` in state
`S` with the lockout inactive (and the entry / on-state callbacks leaving
the current state and the pending slot alone): if `S`'s rule list has a rule
for `E` the machine ends the tick in the target of the first matching rule;
if no rule matches, the current state is unchanged; in both cases the
pending slot is `EVENT_NONE` at the end of the tick. -/
theorem execute_event_dispatch (table : SMState → StateConfig) (hooks : Hooks)
    (now : Nat) (ctx : Ctx) (E : SMEvent)
    (hlock : ctx.error_handler.critical_lock_active = false)
    (hpend : ctx.pending_event = E) (hE : E ≠ EVENT_NONE)
    (hentry : preservesCore hooks.on_entry)
    (hstate : preservesCore hooks.on_state) :
    (∀ target, CheckStateTransition (table ctx.current_state) E = some target →
      (StateMachine_Execute table hooks now ctx).current_state = target)
    ∧ (CheckStateTransition (table ctx.current_state) E = none →
      (StateMachine_Execute table hooks now ctx).current_state = ctx.current_state)
    ∧ (StateMachine_Execute table hooks now ctx).pending_event = EVENT_NONE := by
  have h1 := executeEntryPhase_core hooks now ctx.current_state ctx hentry
  have h2 := executeTickPhase_core hooks ctx.current_state
    (executeEntryPhase hooks now ctx.current_state ctx) hstate
  set ctx2 := executeTickPhase hooks ctx.current_state
    (executeEntryPhase hooks now ctx.current_state ctx) with hc2
  have hpend2 : ctx2.pending_event = E := by rw [h2.2, h1.2, hpend]
  have hcur2 : ctx2.current_state = ctx.current_state := by rw [h2.1, h1.1]
  have h3 : executeTimeoutPhase (table ctx.current_state).timeout_ms now ctx2 = ctx2 :=
    executeTimeoutPhase_occupied _ _ _ (by rw [hpend2]; exact hE)
  have hexec : StateMachine_Execute table hooks now ctx
      = executeEventPhase table hooks ctx2 := by
    unfold StateMachine_Execute
    rw [if_neg (by simp [hlock])]
    show executeEventPhase table hooks
      (executeTimeoutPhase (table ctx.current_state).timeout_ms now ctx2)
      = executeEventPhase table hooks ctx2
    rw [h3]
  refine ⟨?_, ?_, ?_⟩
  · intro target hm
    rw [hexec]
    unfold executeEventPhase
    rw [if_pos (by rw [hpend2]; exact hE)]
    rw [hpend2, hcur2, hm]
    rfl
  · intro hm
    rw [hexec]
    unfold executeEventPhase
    rw [if_pos (by rw [hpend2]; exact hE)]
    rw [hpend2, hcur2, hm]
    exact hcur2
  · rw [hexec]
    exact executeEventPhase_pending _ _ _

/-- Witness for C3 at a concrete input: `STATE_IDLE` with pending
`EVENT_START` transitions to `STATE_ACTIVE` and the slot is cleared. -/
theorem execute_event_dispatch_witness :
    (StateMachine_Execute InitializeStateTable noHooks 5
      { StateMachine_Init 0 with current_state := STATE_IDLE,
                                 pending_event := EVENT_START }).current_state
      = STATE_ACTIVE
    ∧ (StateMachine_Execute InitializeStateTable noHooks 5
      { StateMachine_Init 0 with current_state := STATE_IDLE,
                                 pending_event := EVENT_START }).pending_event
      = EVENT_NONE := by
  have h := execute_event_dispatch InitializeStateTable noHooks 5
    { StateMachine_Init 0 with current_state := STATE_IDLE,
                               pending_event := EVENT_START }
    EVENT_START rfl rfl (by decide)
    (fun _ _ => ⟨rfl, rfl⟩) (fun _ _ => ⟨rfl, rfl⟩)
  exact ⟨h.1 STATE_ACTIVE rfl, h.2.2⟩

/-- Helper: at the instant the entry time is (re)stamped, no nonzero timeout
has elapsed. -/
theorem isTimeout_now_false (timeout_ms now : Nat) (h : 0 < timeout_ms) :
    Platform_IsTimeout now timeout_ms now = false := by
  unfold Platform_IsTimeout
  rw [if_pos (le_refl now)]
  simp
  omega

/-- Helper: posting into an empty slot stores the event. -/
theorem postEvent_empty (e : SMEvent) (ctx : Ctx)
    (h : ctx.pending_event = EVENT_NONE) (he : e ≠ EVENT_NONE) :
    StateMachine_PostEvent e ctx = (true, { ctx with pending_event := e }) := by
  unfold StateMachine_PostEvent
  rw [if_neg he, if_neg (by simp [h])]

/-- C7: in a state with a nonzero timeout `T`, once `T` ms have elapsed with
an empty pending slot, the tick posts `EVENT_TIMEOUT` and (combined with the
transition table, which in the table built at init maps `EVENT_TIMEOUT` of
every nonzero-timeout state to a different state) processes it in that same
tick, ending in the rule's target with the slot cleared; the immediately
following tick restamps the entry time and does not post the timeout again
(posted exactly once); and a timeout firing while an event is already
pending is silently dropped, never overriding the pending event. -/
theorem state_timeout_once :
    (∀ (table : SMState → StateConfig) (ctx : Ctx) (now : Nat) (target : SMState),
      ctx.error_handler.critical_lock_active = false →
      ctx.state_changed = false →
      ctx.pending_event = EVENT_NONE →
      0 < (table ctx.current_state).timeout_ms →
      Platform_IsTimeout ctx.state_entry_time (table ctx.current_state).timeout_ms now
        = true →
      CheckStateTransition (table ctx.current_state) EVENT_TIMEOUT = some target →
      (StateMachine_Execute table noHooks now ctx).current_state = target
      ∧ (StateMachine_Execute table noHooks now ctx).pending_event = EVENT_NONE
      ∧ (StateMachine_Execute table noHooks now ctx).state_changed = true)
    ∧ (∀ s, 0 < (InitializeStateTable s).timeout_ms →
      ∃ t, CheckStateTransition (InitializeStateTable s) EVENT_TIMEOUT = some t ∧ t ≠ s)
    ∧ (∀ (table : SMState → StateConfig) (ctx : Ctx) (now2 : Nat),
      ctx.error_handler.critical_lock_active = false →
      ctx.state_changed = true →
      ctx.pending_event = EVENT_NONE →
      (StateMachine_Execute table noHooks now2 ctx).current_state = ctx.current_state
      ∧ (StateMachine_Execute table noHooks now2 ctx).pending_event = EVENT_NONE)
    ∧ (∀ (timeout_ms now : Nat) (ctx : Ctx), ctx.pending_event ≠ EVENT_NONE →
      executeTimeoutPhase timeout_ms now ctx = ctx) := by
  refine ⟨?_, by decide, ?_, executeTimeoutPhase_occupied⟩
  · intro table ctx now target hlock hsc hpend hT htime hrule
    have hep : executeEntryPhase noHooks now ctx.current_state ctx = ctx := by
      unfold executeEntryPhase
      rw [if_neg (by simp [hsc])]
    set c2 := executeTickPhase noHooks ctx.current_state ctx with hc2def
    have hc2p : c2.pending_event = EVENT_NONE := hpend
    have hc2s : c2.current_state = ctx.current_state := rfl
    have hc2t : c2.state_entry_time = ctx.state_entry_time := rfl
    have hto : executeTimeoutPhase (table ctx.current_state).timeout_ms now c2
        = { c2 with pending_event := EVENT_TIMEOUT } := by
      unfold executeTimeoutPhase
      rw [if_pos ⟨hT, by rw [hc2t]; exact htime⟩]
      rw [postEvent_empty EVENT_TIMEOUT c2 hc2p (by decide)]
    have hexec : StateMachine_Execute table noHooks now ctx
        = executeEventPhase table noHooks { c2 with pending_event := EVENT_TIMEOUT } := by
      unfold StateMachine_Execute
      rw [if_neg (by simp [hlock])]
      show executeEventPhase table noHooks
        (executeTimeoutPhase (table ctx.current_state).timeout_ms now
          (executeTickPhase noHooks ctx.current_state
            (executeEntryPhase noHooks now ctx.current_state ctx))) = _
      rw [hep, ← hc2def, hto]
    rw [hexec]
    unfold executeEventPhase
    rw [if_pos (by simp)]
    have hscr : CheckStateTransition
        (table ({ c2 with pending_event := EVENT_TIMEOUT } : Ctx).current_state)
        ({ c2 with pending_event := EVENT_TIMEOUT } : Ctx).pending_event
        = some target := by
      show CheckStateTransition (table c2.current_state) EVENT_TIMEOUT = some target
      rw [hc2s]
      exact hrule
    rw [hscr]
    exact ⟨rfl, rfl, rfl⟩
  · intro table ctx now2 hlock hsc hpend
    set c1 := executeEntryPhase noHooks now2 ctx.current_state ctx with hc1def
    have hc1p : c1.pending_event = EVENT_NONE := by
      rw [hc1def]
      unfold executeEntryPhase
      rw [if_pos (by simp [hsc])]
      exact hpend
    have hc1s : c1.current_state = ctx.current_state := by
      rw [hc1def]
      unfold executeEntryPhase
      rw [if_pos (by simp [hsc])]
      rfl
    have hc1t : c1.state_entry_time = now2 := by
      rw [hc1def]
      unfold executeEntryPhase
      rw [if_pos (by simp [hsc])]
    set c2 := executeTickPhase noHooks ctx.current_state c1 with hc2def
    have hc2p : c2.pending_event = EVENT_NONE := hc1p
    have hc2s : c2.current_state = ctx.current_state := hc1s
    have hc2t : c2.state_entry_time = now2 := hc1t
    have hto : executeTimeoutPhase (table ctx.current_state).timeout_ms now2 c2 = c2 := by
      unfold executeTimeoutPhase
      split
      · rename_i hcond
        exfalso
        rw [hc2t] at hcond
        rw [isTimeout_now_false _ now2 hcond.1] at hcond
        simp at hcond
      · rfl
    have hexec : StateMachine_Execute table noHooks now2 ctx
        = executeEventPhase table noHooks c2 := by
      unfold StateMachine_Execute
      rw [if_neg (by simp [hlock])]
      show executeEventPhase table noHooks
        (executeTimeoutPhase (table ctx.current_state).timeout_ms now2
          (executeTickPhase noHooks ctx.current_state
            (executeEntryPhase noHooks now2 ctx.current_state ctx))) = _
      rw [← hc1def, ← hc2def, hto]
    rw [hexec]
    unfold executeEventPhase
    rw [if_neg (by simp [hc2p])]
    exact ⟨hc2s, hc2p⟩

/-- Witness for C7 at a concrete input: `STATE_PROCESSING` entered at time 0
with timeout 3000, ticked at time 3000, moves to `STATE_RECOVERY` in that
tick with the slot cleared; the follow-up tick stays in `STATE_RECOVERY`. -/
theorem state_timeout_once_witness :
    (StateMachine_Execute InitializeStateTable noHooks 3000
      { StateMachine_Init 0 with current_state := STATE_PROCESSING }).current_state
      = STATE_RECOVERY
    ∧ (StateMachine_Execute InitializeStateTable noHooks 3010
      (StateMachine_Execute InitializeStateTable noHooks 3000
        { StateMachine_Init 0 with
          current_state := STATE_PROCESSING })).current_state
      = STATE_RECOVERY := by
  have h1 := state_timeout_once.1 InitializeStateTable
    { StateMachine_Init 0 with current_state := STATE_PROCESSING }
    3000 STATE_RECOVERY rfl rfl rfl (by decide) (by decide) rfl
  have h2 := state_timeout_once.2.2.1 InitializeStateTable
    (StateMachine_Execute InitializeStateTable noHooks 3000
      { StateMachine_Init 0 with current_state := STATE_PROCESSING })
    3010 (by rfl) h1.2.2 h1.2.1
  exact ⟨h1.1, by rw [h2.1, h1.1]⟩

/-- Helper: `StateMachine_PostEvent` never touches the error-handler state. -/
theorem postEvent_error_handler (e : SMEvent) (ctx : Ctx) :
    (StateMachine_PostEvent e ctx).2.error_handler = ctx.error_handler := by
  unfold StateMachine_PostEvent
  split
  · rfl
  · split <;> rfl

/-- Helper: posting onto an occupied slot fails and changes nothing. -/
theorem postEvent_occupied (e : SMEvent) (ctx : Ctx)
    (h : ctx.pending_event ≠ EVENT_NONE) :
    StateMachine_PostEvent e ctx = (false, ctx) := by
  unfold StateMachine_PostEvent
  by_cases he : e = EVENT_NONE
  · rw [if_pos he]
  · rw [if_neg he, if_pos h]

/-- Helper: `ErrorHandler_HandleCriticalError` always leaves the lockout
flag set, whether or not its `EVENT_ERROR_CRITICAL` post landed. -/
theorem handleCritical_lock (code : ErrorCode) (now : Nat) (ctx : Ctx) :
    (ErrorHandler_HandleCriticalError code now ctx).error_handler.critical_lock_active
      = true := by
  unfold ErrorHandler_HandleCriticalError
  rw [postEvent_error_handler]

/-- Helper: a state transition performed by lock-preserving hooks preserves
the lockout flag. -/
theorem perform_lock (hooks : Hooks) (new_state : SMState) (ctx : Ctx)
    (h : preservesLock hooks.on_exit) :
    (PerformStateTransition hooks new_state ctx).error_handler.critical_lock_active
      = ctx.error_handler.critical_lock_active := by
  unfold PerformStateTransition
  exact h ctx.current_state ctx

/-- Helper: while the lockout flag is set, every tick ends (and returns)
in `STATE_CRITICAL_ERROR`, whatever the hooks do. -/
theorem execute_locked_state (table : SMState → StateConfig) (hooks : Hooks)
    (now : Nat) (ctx : Ctx)
    (h : ctx.error_handler.critical_lock_active = true) :
    (StateMachine_Execute table hooks now ctx).current_state
      = STATE_CRITICAL_ERROR := by
  unfold StateMachine_Execute
  rw [if_pos (by simp [h])]
  by_cases hc : ctx.current_state = STATE_CRITICAL_ERROR
  · rw [if_neg (by simp [hc])]
    exact hc
  · rw [if_pos hc]
    rfl

/-- Helper: while the lockout flag is set, a tick with a lock-preserving
`on_exit` keeps it set. -/
theorem execute_locked_lock (table : SMState → StateConfig) (hooks : Hooks)
    (now : Nat) (ctx : Ctx)
    (h : ctx.error_handler.critical_lock_active = true)
    (hx : preservesLock hooks.on_exit) :
    (StateMachine_Execute table hooks now ctx).error_handler.critical_lock_active
      = true := by
  unfold StateMachine_Execute
  rw [if_pos (by simp [h])]
  split
  · rw [perform_lock _ _ _ hx]
    exact h
  · exact h

/-- Helper: the lockout flag survives any lock-preserving operation. -/
theorem applyOp_lock (op : Op) (ctx : Ctx)
    (h : ctx.error_handler.critical_lock_active = true)
    (hop : opPreservesLock op) :
    (applyOp op ctx).error_handler.critical_lock_active = true := by
  cases op with
  | tick table hooks now => exact execute_locked_lock table hooks now ctx h hop
  | post e =>
    show (StateMachine_PostEvent e ctx).2.error_handler.critical_lock_active = true
    rw [postEvent_error_handler]
    exact h
  | reset hooks =>
    show (StateMachine_Reset hooks ctx).error_handler.critical_lock_active = true
    unfold StateMachine_Reset
    rw [if_pos (by simp [h])]
    exact h

/-- Helper: the lockout flag survives any trace of lock-preserving
operations. -/
theorem runOps_lock (ops : List Op) (ctx : Ctx)
    (h : ctx.error_handler.critical_lock_active = true)
    (hops : ∀ op ∈ ops, opPreservesLock op) :
    (runOps ops ctx).error_handler.critical_lock_active = true := by
  induction ops generalizing ctx with
  | nil => exact h
  | cons op rest ih =>
    exact ih (applyOp op ctx)
      (applyOp_lock op ctx h (hops op (List.mem_cons_self op rest)))
      (fun o ho => hops o (List.mem_cons_of_mem op ho))

/-- C1: `ErrorHandler_HandleCriticalError` (and `ErrorHandler_Report` at
level CRITICAL) sets the lockout flag even when its `EVENT_ERROR_CRITICAL`
post is dropped because the slot is occupied (the pending event is then left
unchanged); from then on, after any trace of posts, resets and ticks whose
`on_exit` callbacks preserve the flag, every `StateMachine_Execute` call
returns `STATE_CRITICAL_ERROR`; `StateMachine_Reset` under the lockout is a
no-op (it does not clear the lockout), while `StateMachine_Init` does clear
it. -/
theorem critical_lockout_absolute (ctx : Ctx) (code : ErrorCode) (now : Nat) :
    (ErrorHandler_HandleCriticalError code now ctx).error_handler.critical_lock_active
      = true
    ∧ (ctx.pending_event ≠ EVENT_NONE →
      (ErrorHandler_HandleCriticalError code now ctx).pending_event
        = ctx.pending_event)
    ∧ (∀ (code2 : ErrorCode) (now2 : Nat),
      ((ErrorHandler_Report ERROR_LEVEL_CRITICAL code2 now2 ctx).2).error_handler.critical_lock_active
        = true)
    ∧ (∀ ops : List Op, (∀ op ∈ ops, opPreservesLock op) →
      ∀ (table : SMState → StateConfig) (hooks : Hooks) (now2 : Nat),
      preservesLock hooks.on_exit →
      (StateMachine_Execute table hooks now2
        (runOps ops (ErrorHandler_HandleCriticalError code now ctx))).current_state
        = STATE_CRITICAL_ERROR)
    ∧ (∀ hooks2 : Hooks,
      StateMachine_Reset hooks2 (ErrorHandler_HandleCriticalError code now ctx)
        = ErrorHandler_HandleCriticalError code now ctx)
    ∧ (∀ now3 : Nat,
      (StateMachine_Init now3).error_handler.critical_lock_active = false) := by
  refine ⟨handleCritical_lock code now ctx, ?_, ?_, ?_, ?_, fun _ => rfl⟩
  · intro hocc
    unfold ErrorHandler_HandleCriticalError
    show (StateMachine_PostEvent EVENT_ERROR_CRITICAL _).2.pending_event
      = ctx.pending_event
    rw [postEvent_occupied _ _ (by exact hocc)]
  · intro code2 now2
    unfold ErrorHandler_Report
    exact handleCritical_lock code2 now2 _
  · intro ops hops table hooks now2 _
    exact execute_locked_state table hooks now2 _
      (runOps_lock ops _ (handleCritical_lock code now ctx) hops)
  · intro hooks2
    unfold StateMachine_Reset
    rw [if_pos (by simp [handleCritical_lock code now ctx])]

/-- Witness for C1 at a concrete input: after a critical error reported with
`EVENT_START` still pending (so the critical post is dropped), a post and a
tick later the machine still executes to `STATE_CRITICAL_ERROR`, and the
lockout remains set with the dropped post leaving the slot unchanged. -/
theorem critical_lockout_absolute_witness :
    (ErrorHandler_HandleCriticalError ERROR_CODE_HARDWARE_FAULT 5
      { StateMachine_Init 0 with pending_event := EVENT_START }).pending_event
      = EVENT_START
    ∧ (ErrorHandler_HandleCriticalError ERROR_CODE_HARDWARE_FAULT 5
      { StateMachine_Init 0 with
        pending_event := EVENT_START }).error_handler.critical_lock_active = true
    ∧ (StateMachine_Execute InitializeStateTable noHooks 7
      (runOps [Op.post EVENT_STOP, Op.tick InitializeStateTable noHooks 6]
        (ErrorHandler_HandleCriticalError ERROR_CODE_HARDWARE_FAULT 5
          { StateMachine_Init 0 with pending_event := EVENT_START }))).current_state
      = STATE_CRITICAL_ERROR := by
  have h := critical_lockout_absolute
    { StateMachine_Init 0 with pending_event := EVENT_START }
    ERROR_CODE_HARDWARE_FAULT 5
  refine ⟨h.2.1 (by decide), h.1, ?_⟩
  refine h.2.2.2.1 [Op.post EVENT_STOP, Op.tick InitializeStateTable noHooks 6]
    ?_ InitializeStateTable noHooks 7 (fun _ _ => rfl)
  intro op hop
  rcases List.mem_cons.mp hop with rfl | hop2
  · trivial
  · rcases List.mem_cons.mp hop2 with rfl | hop3
    · exact fun _ _ => rfl
    · exact absurd hop3 (List.not_mem_nil op)

/-- Well-formedness of the history buffer: in-range write index and full
fixed capacity (established by `ErrorHandler_Init`, preserved by writes). -/
def histInv (h : ErrorHandlerT) : Prop :=
  h.history_index < ERROR_HISTORY_SIZE
  ∧ h.error_history.length = ERROR_HISTORY_SIZE

/-- Helper: a history write preserves well-formedness. -/
theorem histInv_add (h : ErrorHandlerT) (e : ErrorInfo) (inv : histInv h) :
    histInv (AddErrorToHistory e h) := by
  refine ⟨Nat.mod_lt _ (by decide), ?_⟩
  show (h.error_history.set h.history_index e).length = ERROR_HISTORY_SIZE
  rw [List.length_set]
  exact inv.2

/-- Helper: reading index 0 right after a write yields the written record. -/
theorem getHistory_zero_add (h : ErrorHandlerT) (e : ErrorInfo) (inv : histInv h) :
    ErrorHandler_GetHistoryError 0 (AddErrorToHistory e h) = some e := by
  unfold ErrorHandler_GetHistoryError AddErrorToHistory
  rw [if_neg (by decide)]
  have hi : h.history_index < 16 := inv.1
  have hidx : ((h.history_index + 1) % ERROR_HISTORY_SIZE + ERROR_HISTORY_SIZE - 0 - 1)
      % ERROR_HISTORY_SIZE = h.history_index := by
    unfold ERROR_HISTORY_SIZE
    omega
  rw [hidx]
  have hlen : h.history_index < h.error_history.length := by
    rw [inv.2]
    exact inv.1
  simp [List.getD_eq_getElem?_getD, List.getElem?_set_self, hlen]

/-- Helper: reading index `k + 1` after a write reads what index `k` read
before the write. -/
theorem getHistory_succ_add (h : ErrorHandlerT) (e : ErrorInfo) (k : Nat)
    (inv : histInv h) (hk : k + 1 < ERROR_HISTORY_SIZE) :
    ErrorHandler_GetHistoryError (k + 1) (AddErrorToHistory e h)
      = ErrorHandler_GetHistoryError k h := by
  unfold ErrorHandler_GetHistoryError AddErrorToHistory
  have hi : h.history_index < 16 := inv.1
  have hk16 : k + 1 < 16 := hk
  rw [if_neg (by unfold ERROR_HISTORY_SIZE; omega),
      if_neg (by unfold ERROR_HISTORY_SIZE; omega)]
  have hidx : ((h.history_index + 1) % ERROR_HISTORY_SIZE + ERROR_HISTORY_SIZE
        - (k + 1) - 1) % ERROR_HISTORY_SIZE
      = (h.history_index + ERROR_HISTORY_SIZE - k - 1) % ERROR_HISTORY_SIZE := by
    unfold ERROR_HISTORY_SIZE
    omega
  rw [hidx]
  have hne : h.history_index
      ≠ (h.history_index + ERROR_HISTORY_SIZE - k - 1) % ERROR_HISTORY_SIZE := by
    unfold ERROR_HISTORY_SIZE
    omega
  simp [List.getD_eq_getElem?_getD, List.getElem?_set_ne hne]

/-- Helper: well-formedness survives any number of writes. -/
theorem histInv_addAll (es : List ErrorInfo) (h : ErrorHandlerT) (inv : histInv h) :
    histInv (histAddAll es h) := by
  induction es generalizing h with
  | nil => exact inv
  | cons e rest ih => exact ih (AddErrorToHistory e h) (histInv_add h e inv)

/-- Helper: a read deeper than the number of subsequent writes sees the
older buffer contents, shifted. -/
theorem getHistory_deep (es : List ErrorInfo) (h : ErrorHandlerT) (k : Nat)
    (inv : histInv h) (hk : k < ERROR_HISTORY_SIZE) (hlen : es.length ≤ k) :
    ErrorHandler_GetHistoryError k (histAddAll es h)
      = ErrorHandler_GetHistoryError (k - es.length) h := by
  induction es generalizing h with
  | nil => rfl
  | cons e rest ih =>
    have hrest : rest.length + 1 ≤ k := by simpa using hlen
    have h1 : ErrorHandler_GetHistoryError k (histAddAll rest (AddErrorToHistory e h))
        = ErrorHandler_GetHistoryError (k - rest.length) (AddErrorToHistory e h) :=
      ih (AddErrorToHistory e h) (histInv_add h e inv) (by omega)
    obtain ⟨m, hm⟩ : ∃ m, k - rest.length = m + 1 := ⟨k - rest.length - 1, by omega⟩
    have h2 := getHistory_succ_add h e m inv
      (by unfold ERROR_HISTORY_SIZE at *; omega)
    show ErrorHandler_GetHistoryError k (histAddAll rest (AddErrorToHistory e h))
      = ErrorHandler_GetHistoryError (k - (rest.length + 1)) h
    rw [h1, hm, h2]
    congr 1
    omega

/-- Helper: after any sequence of writes, index `k` reads back the
`(k+1)`-th most recent write. -/
theorem getHistory_addAll (es : List ErrorInfo) (h : ErrorHandlerT) (k : Nat)
    (inv : histInv h) (hk16 : k < ERROR_HISTORY_SIZE) (hk : k < es.length) :
    ErrorHandler_GetHistoryError k (histAddAll es h)
      = some (es.getD (es.length - 1 - k) zeroErrorInfo) := by
  induction es generalizing h k with
  | nil => exact absurd hk (by simp)
  | cons e rest ih =>
    show ErrorHandler_GetHistoryError k (histAddAll rest (AddErrorToHistory e h)) = _
    by_cases hlt : k < rest.length
    · rw [ih (AddErrorToHistory e h) k (histInv_add h e inv) hk16 hlt]
      have hm : (e :: rest).length - 1 - k = (rest.length - 1 - k) + 1 := by
        simp only [List.length_cons]
        omega
      rw [hm, List.getD_cons_succ]
    · have hke : k = rest.length := by
        have : k < rest.length + 1 := by simpa using hk
        omega
      have hdeep := getHistory_deep rest (AddErrorToHistory e h) k
        (histInv_add h e inv) hk16 (by omega)
      rw [hdeep, hke, Nat.sub_self, getHistory_zero_add h e inv]
      have hidx0 : (e :: rest).length - 1 - rest.length = 0 := by
        simp only [List.length_cons]
        omega
      rw [hidx0]
      rfl

/-- Helper: channel verification touches only the comm-verification state,
never the error handler. -/
theorem verifyComm_error_handler (now : Nat) (ctx : Ctx) :
    ((ErrorHandler_VerifyCommChannel now ctx).2).error_handler = ctx.error_handler := by
  unfold ErrorHandler_VerifyCommChannel
  dsimp only
  split
  · split <;> rfl
  · rfl

/-- Helper: normal-error dispatch rewrites the current-error slot and posts,
leaving the history buffer and its write index alone. -/
theorem handleNormal_history (code : ErrorCode) (now : Nat) (ctx : Ctx) :
    ((ErrorHandler_HandleNormalError code now ctx).2).error_handler.error_history
      = ctx.error_handler.error_history
    ∧ ((ErrorHandler_HandleNormalError code now ctx).2).error_handler.history_index
      = ctx.error_handler.history_index := by
  unfold ErrorHandler_HandleNormalError
  constructor
  · show (StateMachine_PostEvent EVENT_ERROR_NORMAL _).2.error_handler.error_history = _
    rw [postEvent_error_handler]
  · show (StateMachine_PostEvent EVENT_ERROR_NORMAL _).2.error_handler.history_index = _
    rw [postEvent_error_handler]

/-- Helper: critical-error dispatch also leaves the history fields alone. -/
theorem handleCritical_history (code : ErrorCode) (now : Nat) (ctx : Ctx) :
    (ErrorHandler_HandleCriticalError code now ctx).error_handler.error_history
      = ctx.error_handler.error_history
    ∧ (ErrorHandler_HandleCriticalError code now ctx).error_handler.history_index
      = ctx.error_handler.history_index := by
  unfold ErrorHandler_HandleCriticalError
  constructor
  · show (StateMachine_PostEvent EVENT_ERROR_CRITICAL _).2.error_handler.error_history = _
    rw [postEvent_error_handler]
  · show (StateMachine_PostEvent EVENT_ERROR_CRITICAL _).2.error_handler.history_index = _
    rw [postEvent_error_handler]

/-- Helper: minor-error dispatch (including its possible escalation to a
normal error) leaves the history fields alone. -/
theorem handleMinor_history (code : ErrorCode) (now : Nat) (ctx : Ctx) :
    ((ErrorHandler_HandleMinorError code now ctx).2).error_handler.error_history
      = ctx.error_handler.error_history
    ∧ ((ErrorHandler_HandleMinorError code now ctx).2).error_handler.history_index
      = ctx.error_handler.history_index := by
  unfold ErrorHandler_HandleMinorError
  dsimp only
  split
  · split
    · split
      · split
        · constructor <;> simp [verifyComm_error_handler]
        · constructor <;> simp [verifyComm_error_handler]
      · constructor <;> simp [verifyComm_error_handler]
    · exact ⟨(handleNormal_history code now _).1, (handleNormal_history code now _).2⟩
  · split
    · split
      · split
        · constructor <;> simp [verifyComm_error_handler]
        · constructor <;> simp [verifyComm_error_handler]
      · constructor <;> simp [verifyComm_error_handler]
    · exact ⟨(handleNormal_history code now _).1, (handleNormal_history code now _).2⟩

/-- C5: the error history is a circular buffer of capacity 16: a write lands
at the write index, which then wraps modulo the capacity; after any sequence
of writes, `ErrorHandler_GetHistoryError 0` returns the most recent write
and index `k` the `(k+1)`-th most recent among the last 16; and every
`ErrorHandler_Report`, whatever its severity, changes the history exactly by
appending the record it builds (the dispatch after the append never touches
history), so more than 16 reports overwrite the oldest entries. -/
theorem history_circular :
    histInv initErrorHandler
    ∧ (∀ (h : ErrorHandlerT) (e : ErrorInfo), histInv h →
      (AddErrorToHistory e h).history_index
        = (h.history_index + 1) % ERROR_HISTORY_SIZE
      ∧ ErrorHandler_GetHistoryError 0 (AddErrorToHistory e h) = some e)
    ∧ (∀ (es : List ErrorInfo) (h : ErrorHandlerT) (k : Nat), histInv h →
      k < ERROR_HISTORY_SIZE → k < es.length →
      ErrorHandler_GetHistoryError k (histAddAll es h)
        = some (es.getD (es.length - 1 - k) zeroErrorInfo))
    ∧ (∀ (level : ErrorLevel) (code : ErrorCode) (now : Nat) (ctx : Ctx),
      ((ErrorHandler_Report level code now ctx).2).error_handler.error_history
        = (AddErrorToHistory (mkReportInfo level code now ctx)
            ctx.error_handler).error_history
      ∧ ((ErrorHandler_Report level code now ctx).2).error_handler.history_index
        = (AddErrorToHistory (mkReportInfo level code now ctx)
            ctx.error_handler).history_index) := by
  refine ⟨⟨by decide, by decide⟩, ?_, getHistory_addAll, ?_⟩
  · intro h e inv
    exact ⟨rfl, getHistory_zero_add h e inv⟩
  · intro level code now ctx
    cases level with
    | ERROR_LEVEL_NONE => exact ⟨rfl, rfl⟩
    | ERROR_LEVEL_MINOR => exact handleMinor_history code now _
    | ERROR_LEVEL_NORMAL => exact handleNormal_history code now _
    | ERROR_LEVEL_CRITICAL => exact handleCritical_history code now _

/-- Seventeen distinct records, one more than the buffer capacity. -/
def seventeenRecords : List ErrorInfo :=
  (List.range 17).map (fun i => { zeroErrorInfo with timestamp := i + 1 })

/-- Witness for C5 at a concrete input: after 17 writes into the fresh
buffer, index 0 reads the 17th record, index 15 reads the 2nd (the 1st was
overwritten by the wrap). -/
theorem history_circular_witness :
    ErrorHandler_GetHistoryError 0 (histAddAll seventeenRecords initErrorHandler)
      = some { zeroErrorInfo with timestamp := 17 }
    ∧ ErrorHandler_GetHistoryError 15 (histAddAll seventeenRecords initErrorHandler)
      = some { zeroErrorInfo with timestamp := 2 } := by
  have h0 := history_circular.2.2.1 seventeenRecords initErrorHandler 0
    history_circular.1 (by decide) (by decide)
  have h15 := history_circular.2.2.1 seventeenRecords initErrorHandler 15
    history_circular.1 (by decide) (by decide)
  constructor
  · rw [h0]
    rfl
  · rw [h15]
    rfl

/-- Helper: channel verification leaves the current-error slot alone. -/
theorem verifyComm_current_error (now : Nat) (ctx : Ctx) :
    ((ErrorHandler_VerifyCommChannel now ctx).2).error_handler.current_error
      = ctx.error_handler.current_error := by
  rw [verifyComm_error_handler]

/-- C4 counterexample: the claim "retry_count never exceeds the configured
maximum and, once it reaches it, every subsequent call fails permanently" is
false on the code. Starting from a freshly reported normal error, the fourth
`ErrorHandler_AttemptRecovery` call leaves `retry_count = 4`, exceeding
`ERROR_MAX_RECOVERY_ATTEMPTS = 3` (the counter is incremented before the
limit check and never clamped); and because the counter is a `uint8_t`, on
an error with code `ERROR_CODE_TIMEOUT` whose counter has climbed to 255 the
next call wraps it to 0 and returns success again, breaking permanence. -/
theorem attemptRecovery_ceiling_counterexample :
    ((fun c => (ErrorHandler_AttemptRecovery noHandlers 0 c).2)^[4]
      ((ErrorHandler_HandleNormalError ERROR_CODE_HARDWARE_FAULT 0
        (StateMachine_Init 0)).2)).error_handler.current_error.retry_count = 4
    ∧ ¬(4 ≤ ERROR_MAX_RECOVERY_ATTEMPTS)
    ∧ (ErrorHandler_AttemptRecovery noHandlers 0
      ((fun c => (ErrorHandler_AttemptRecovery noHandlers 0 c).2)^[2]
        ((ErrorHandler_HandleNormalError ERROR_CODE_HARDWARE_FAULT 0
          (StateMachine_Init 0)).2))).1 = false
    ∧ (ErrorHandler_AttemptRecovery noHandlers 0
      { StateMachine_Init 0 with error_handler :=
        { initErrorHandler with current_error :=
          { level := ERROR_LEVEL_NORMAL, code := ERROR_CODE_TIMEOUT, timestamp := 0,
            state := STATE_ACTIVE, retry_count := 255, is_recovered := false } } }).1
      = true := by
  refine ⟨by rfl, by decide, by rfl, by rfl⟩

/-- C4 as amended: for every active error, each `ErrorHandler_AttemptRecovery`
call increments `retry_count` by exactly one modulo 256 (`uint8_t`), so the
counter strictly increases until it wraps from 255 to 0; every call whose
incremented counter has reached `ERROR_MAX_RECOVERY_ATTEMPTS` (and has not
wrapped) returns failure — so failure persists from the call that reaches
the maximum until the 256th call wraps the counter — and the counter can
exceed the configured maximum but always stays below 256. -/
theorem attemptRecovery_retry_ceiling (handlers : ErrorCode → Option Bool)
    (now : Nat) (ctx : Ctx)
    (hlevel : ctx.error_handler.current_error.level ≠ ERROR_LEVEL_NONE) :
    ((ErrorHandler_AttemptRecovery handlers now
        ctx).2).error_handler.current_error.retry_count
      = (ctx.error_handler.current_error.retry_count + 1) % UINT8_MOD
    ∧ (ctx.error_handler.current_error.retry_count + 1 < UINT8_MOD →
      ((ErrorHandler_AttemptRecovery handlers now
          ctx).2).error_handler.current_error.retry_count
        = ctx.error_handler.current_error.retry_count + 1)
    ∧ (ERROR_MAX_RECOVERY_ATTEMPTS ≤ ctx.error_handler.current_error.retry_count + 1 →
      ctx.error_handler.current_error.retry_count + 1 < UINT8_MOD →
      (ErrorHandler_AttemptRecovery handlers now ctx).1 = false)
    ∧ ((ErrorHandler_AttemptRecovery handlers now
        ctx).2).error_handler.current_error.retry_count < UINT8_MOD := by
  have hmod : (ctx.error_handler.current_error.retry_count + 1) % UINT8_MOD < UINT8_MOD :=
    Nat.mod_lt _ (by decide)
  unfold ErrorHandler_AttemptRecovery
  rw [if_neg hlevel]
  dsimp only
  split
  · refine ⟨rfl, ?_, fun _ _ => rfl, hmod⟩
    intro hlt
    show (ctx.error_handler.current_error.retry_count + 1) % UINT8_MOD = _
    exact Nat.mod_eq_of_lt hlt
  · rename_i hge
    have hretry : ∀ branch : Bool × Ctx,
        branch.2.error_handler.current_error.retry_count
          = (ctx.error_handler.current_error.retry_count + 1) % UINT8_MOD →
        (branch.2.error_handler.current_error.retry_count
          = (ctx.error_handler.current_error.retry_count + 1) % UINT8_MOD
        ∧ ((ctx.error_handler.current_error.retry_count + 1 < UINT8_MOD →
          branch.2.error_handler.current_error.retry_count
            = ctx.error_handler.current_error.retry_count + 1))
        ∧ (ERROR_MAX_RECOVERY_ATTEMPTS ≤ ctx.error_handler.current_error.retry_count + 1 →
          ctx.error_handler.current_error.retry_count + 1 < UINT8_MOD →
          branch.1 = false)
        ∧ branch.2.error_handler.current_error.retry_count < UINT8_MOD) := by
      intro branch hb
      refine ⟨hb, ?_, ?_, hb ▸ hmod⟩
      · intro hlt
        rw [hb]
        exact Nat.mod_eq_of_lt hlt
      · intro hmax hlt
        exfalso
        exact hge (by rw [Nat.mod_eq_of_lt hlt]; exact hmax)
    split
    · exact hretry _ rfl
    · split
      · split
        · exact hretry _ (by simp [verifyComm_error_handler])
        · exact hretry _ (by simp [verifyComm_error_handler])
      · exact hretry _ rfl
      · exact hretry _ rfl

/-- Witness for the amended C4 at a concrete input: an active normal error
with `retry_count = 3` (the maximum already reached): the next call fails
and leaves `retry_count = 4`. -/
theorem attemptRecovery_retry_ceiling_witness :
    (ErrorHandler_AttemptRecovery noHandlers 0
      { StateMachine_Init 0 with error_handler :=
        { initErrorHandler with current_error :=
          { level := ERROR_LEVEL_NORMAL, code := ERROR_CODE_HARDWARE_FAULT,
            timestamp := 0, state := STATE_ACTIVE, retry_count := 3,
            is_recovered := false } } }).1 = false
    ∧ (ErrorHandler_AttemptRecovery noHandlers 0
      { StateMachine_Init 0 with error_handler :=
        { initErrorHandler with current_error :=
          { level := ERROR_LEVEL_NORMAL, code := ERROR_CODE_HARDWARE_FAULT,
            timestamp := 0, state := STATE_ACTIVE, retry_count := 3,
            is_recovered := false } } }).2.error_handler.current_error.retry_count
      = 4 := by
  have h := attemptRecovery_retry_ceiling noHandlers 0
    { StateMachine_Init 0 with error_handler :=
      { initErrorHandler with current_error :=
        { level := ERROR_LEVEL_NORMAL, code := ERROR_CODE_HARDWARE_FAULT,
          timestamp := 0, state := STATE_ACTIVE, retry_count := 3,
          is_recovered := false } } } (by decide)
  exact ⟨h.2.2.1 (by decide) (by decide), h.2.1 (by decide)⟩
